import Mathlib

/-!
Verification of the EdgeAudit frontend core against its design specification.

The development shallowly embeds the React/TypeScript source:

* `Loader` models the `useAudits` hook (`src/hooks/useAudits.ts`): the
  effect-driven fetch with its per-effect `mounted` flag, and the exposed
  `refetch()` whose promise handlers carry no guard.  State updates become
  explicit record updates; the interleaving of asynchronous completions
  becomes an event trace consumed by a step function.
* `Wizard` models the submission wizard page (`src/pages/SubmitAuditPage.tsx`):
  its flat field state, `handleBack`, `handleModeSelect`, `loadStrategies`,
  the skip-asset handler, and `handleSubmit` with the remote outcome passed
  explicitly.
* `Dashboard` models the filter/sort handlers of `src/pages/DashboardPage.tsx`.
* `Api` models the remote service client (`src/services/api.ts`): each
  operation is mapped to the HTTP request it issues, with the query-string
  serialization of `getAuditsList` reproduced field by field.
-/

namespace Loader

/-- Outcome of one remote list fetch, as seen by the hook: the resolved
`AuditsListResponse` (abstracted to a numeric payload) or the thrown error
message. -/
inductive FetchOutcome where
  | ok (v : Nat)
  | err (e : String)
deriving DecidableEq, Repr

/-- The state exposed by `useAudits`: the `data`, `error` and `loading`
`useState` cells. -/
structure HookState where
  data : Option Nat
  error : Option String
  loading : Bool
deriving DecidableEq, Repr

/-- The body of the guarded region of `fetchAudits` (and, identically, the
handlers of `refetch`): on success `setData(result); setError(null)`, on
failure `setError(msg)`, and in both cases `setLoading(false)` from the
`finally` block.  Note the failure branch does not touch `data`. -/
def applyOutcome (h : HookState) : FetchOutcome → HookState
  | .ok v => { h with data := some v, error := none, loading := false }
  | .err e => { h with error := some e, loading := false }

/-- Full runtime state of one mounted `useAudits` instance: the exposed hook
state, the generation of the most recent effect run (each run of the
`useEffect` body has its own `mounted` variable, set to `false` by the
cleanup when the dependencies change or the component unmounts, so the flag
of generation `g` is true exactly when `g = activeGen` and the component is
still mounted), plus the sets of in-flight requests. -/
structure LoaderState where
  hook : HookState
  activeGen : Nat
  unmounted : Bool
  pendingEffects : List Nat
  pendingRefetches : List Nat
  nextRefetchId : Nat
deriving DecidableEq, Repr

/-- Events driving one `useAudits` instance: a dependency change re-running
the effect (a new query), a call of the exposed `refetch`, the resolution of
an in-flight effect fetch or refetch, and component unmount. -/
inductive Ev where
  | newQuery
  | refetchCall
  | effectResolve (gen : Nat) (o : FetchOutcome)
  | refetchResolve (id : Nat) (o : FetchOutcome)
  | unmount
deriving DecidableEq, Repr

/-- One scheduler step.  `newQuery` runs the effect cleanup of the previous
generation and starts a fresh `fetchAudits` (which first calls
`setLoading(true)`); `refetchCall` is the exposed `refetch` (also
`setLoading(true)` then an unguarded promise chain); `effectResolve`
applies the fetch outcome only if the resolving generation still has its
`mounted` flag set, i.e. it is the active generation and the component is
mounted; `refetchResolve` applies the outcome unconditionally because the
`refetch` handlers consult no flag.  Invalid events (resolving a request
that is not pending, issuing work after unmount) return `none`. -/
def step (s : LoaderState) : Ev → Option LoaderState
  | .newQuery =>
      if s.unmounted then none else
      some { s with
        activeGen := s.activeGen + 1,
        hook := { s.hook with loading := true },
        pendingEffects := (s.activeGen + 1) :: s.pendingEffects }
  | .refetchCall =>
      if s.unmounted then none else
      some { s with
        hook := { s.hook with loading := true },
        pendingRefetches := s.nextRefetchId :: s.pendingRefetches,
        nextRefetchId := s.nextRefetchId + 1 }
  | .effectResolve g o =>
      if g ∈ s.pendingEffects then
        some { s with
          pendingEffects := s.pendingEffects.erase g,
          hook := if g = s.activeGen ∧ s.unmounted = false
                  then applyOutcome s.hook o else s.hook }
      else none
  | .refetchResolve i o =>
      if i ∈ s.pendingRefetches then
        some { s with
          pendingRefetches := s.pendingRefetches.erase i,
          hook := applyOutcome s.hook o }
      else none
  | .unmount =>
      if s.unmounted then none else some { s with unmounted := true }

/-- Run a trace of events. -/
def run (s : LoaderState) : List Ev → Option LoaderState
  | [] => some s
  | e :: es =>
      match step s e with
      | some s' => run s' es
      | none => none

/-- State right after the component mounts: `useState` initialises
`data = null`, `error = null`, `loading = true`, and the first effect run
(generation 0) has started its fetch. -/
def initLoader : LoaderState :=
  { hook := { data := none, error := none, loading := true },
    activeGen := 0,
    unmounted := false,
    pendingEffects := [0],
    pendingRefetches := [],
    nextRefetchId := 0 }

end Loader

namespace Wizard

/-- The two submission modes of `SubmitAuditPage`. -/
inductive Mode where
  | quickSelect
  | manual
deriving DecidableEq, Repr

/-- The wizard steps of `SubmitAuditPage` (`type Step`). -/
inductive Step where
  | mode
  | strategy
  | asset
  | confirm
deriving DecidableEq, Repr

/-- A catalog entry (`interface Strategy`).  The numeric backtest statistic
is abstracted to an integer; no property here depends on its arithmetic. -/
structure Strategy where
  name : String
  description : String
  assets : List String
  backtest_sharpe : Int
deriving DecidableEq, Repr

/-- The flat field state of `SubmitAuditPage`: one record field per
`useState` cell. -/
structure WizardState where
  mode : Option Mode
  step : Step
  strategies : List Strategy
  loadingStrategies : Bool
  selectedStrategy : Option Strategy
  selectedAsset : String
  loading : Bool
  error : Option String
  success : Option String
deriving DecidableEq, Repr

/-- Initial wizard state, from the `useState` initialisers. -/
def initWizard : WizardState :=
  { mode := none,
    step := Step.mode,
    strategies := [],
    loadingStrategies := false,
    selectedStrategy := none,
    selectedAsset := "",
    loading := false,
    error := none,
    success := none }

/-- Model of `handleModeSelect`: quick-select records the mode (the strategy load is
triggered by the effect), manual surfaces the not-implemented message and
reverts the mode to null. -/
def handleModeSelect (s : WizardState) : Mode → WizardState
  | .quickSelect => { s with mode := some Mode.quickSelect }
  | .manual =>
      { s with
        error := some "Manual entry mode is not yet implemented. Please use Quick Select.",
        mode := none }

/-- The guard of the `useEffect` on `[mode]`: `loadStrategies` fires only
when the mode is quick-select and the strategies array is empty
(`strategies.length === 0`). -/
def strategiesEffectFires (s : WizardState) : Bool :=
  decide (s.mode = some Mode.quickSelect ∧ s.strategies = [])

/-- Model of `loadStrategies`, with the result of `apiService.getStrategies()` passed
explicitly: success stores the fetched catalog and advances to the strategy
step; failure records the error, reverts the mode to null and the step to
mode; `loadingStrategies` is cleared in the `finally` block. -/
def loadStrategies (s : WizardState) :
    Except String (List Strategy) → WizardState
  | .ok catalog =>
      { s with
        loadingStrategies := false,
        error := none,
        strategies := catalog,
        step := Step.strategy }
  | .error e =>
      { s with
        loadingStrategies := false,
        error := some e,
        mode := none,
        step := Step.mode }

/-- Model of `handleStrategySelect`. -/
def handleStrategySelect (s : WizardState) (t : Strategy) : WizardState :=
  { s with selectedStrategy := some t, step := Step.asset }

/-- Model of `handleAssetSelect`. -/
def handleAssetSelect (s : WizardState) (a : String) : WizardState :=
  { s with selectedAsset := a, step := Step.confirm }

/-- The skip-asset-selection handler on the asset step: clears the asset and
jumps to the confirmation step (audit entire strategy). -/
def skipAssetSelection (s : WizardState) : WizardState :=
  { s with selectedAsset := "", step := Step.confirm }

/-- Model of `handleBack`: from confirm, return to the asset step clearing the
selected asset; from asset, return to the strategy step clearing the
selected strategy; from strategy, return to the mode step clearing the
mode; otherwise do nothing. -/
def handleBack (s : WizardState) : WizardState :=
  if s.step = Step.confirm then
    { s with step := Step.asset, selectedAsset := "" }
  else if s.step = Step.asset then
    { s with step := Step.strategy, selectedStrategy := none }
  else if s.step = Step.strategy then
    { s with step := Step.mode, mode := none }
  else s

/-- The submit payload: the full strategy record spread into the request,
plus `selected_asset: selectedAsset || undefined`.  An empty selected asset
is falsy in TypeScript, so the field is set to `undefined` and is absent
from the serialized JSON body; this is `none` here. -/
structure Payload where
  strategyData : Strategy
  selected_asset : Option String
deriving DecidableEq, Repr

/-- Payload construction inside `handleSubmit`. -/
def buildPayload (full : Strategy) (selectedAsset : String) : Payload :=
  { strategyData := full,
    selected_asset := if selectedAsset = "" then none else some selectedAsset }

/-- Network requests `handleSubmit` can issue. -/
inductive SubmitRequest where
  | getStrategyByName (name : String)
  | submitAudit (p : Payload)
deriving DecidableEq, Repr

/-- Combined behaviour of the two awaited remote calls inside
`handleSubmit`: the strategy fetch rejects; or it resolves with the full
record and the submit rejects; or both resolve. -/
inductive SubmitOutcome where
  | fetchFail (r : String)
  | submitFail (full : Strategy) (r : String)
  | submitOk (full : Strategy) (auditId : String)
deriving DecidableEq, Repr

/-- Model of `handleSubmit`, returning the new state and the list of requests issued
in order.  With no selected strategy it returns immediately (no request, no
state change).  Otherwise it sets loading and clears error and success, then
fetches the full strategy by name, builds the payload, submits, and on
rejection of either await records the reason via `setError`; `setLoading(false)`
runs in the `finally` block.  (The success branch additionally schedules a
delayed navigation, outside this state model.) -/
def handleSubmit (s : WizardState) (env : SubmitOutcome) :
    WizardState × List SubmitRequest :=
  match s.selectedStrategy with
  | none => (s, [])
  | some t =>
      let s1 := { s with loading := true, error := none, success := none }
      match env with
      | .fetchFail r =>
          ({ s1 with error := some r, loading := false },
           [SubmitRequest.getStrategyByName t.name])
      | .submitFail full r =>
          ({ s1 with error := some r, loading := false },
           [SubmitRequest.getStrategyByName t.name,
            SubmitRequest.submitAudit (buildPayload full s.selectedAsset)])
      | .submitOk full aid =>
          ({ s1 with
              success := some ("Audit submitted successfully! Audit ID: " ++ aid),
              loading := false },
           [SubmitRequest.getStrategyByName t.name,
            SubmitRequest.submitAudit (buildPayload full s.selectedAsset)])

end Wizard

namespace Dashboard

/-- Sort keys of `QueryParams.sort_by`. -/
inductive SortBy where
  | submitted_at
  | edge_score
  | overfit_probability
deriving DecidableEq, Repr

/-- Sort orders of `QueryParams.sort_order`. -/
inductive SortOrder where
  | asc
  | desc
deriving DecidableEq, Repr

/-- The `filterParams` state of `DashboardPage`. -/
structure FilterParams where
  page : Nat
  page_size : Nat
  strategy_name : String
  sort_by : SortBy
  sort_order : SortOrder
deriving DecidableEq, Repr

/-- Initial `filterParams`. -/
def initFilterParams : FilterParams :=
  { page := 1,
    page_size := 20,
    strategy_name := "",
    sort_by := SortBy.submitted_at,
    sort_order := SortOrder.desc }

/-- Model of `handleFilterChange`: updates the strategy-name filter and resets the
page to 1. -/
def handleFilterChange (prev : FilterParams) (strategyName : String) :
    FilterParams :=
  { prev with strategy_name := strategyName, page := 1 }

/-- Model of `handleSortChange`: updates the sort key and order and resets the page
to 1. -/
def handleSortChange (prev : FilterParams) (sortBy : SortBy)
    (sortOrder : SortOrder) : FilterParams :=
  { prev with sort_by := sortBy, sort_order := sortOrder, page := 1 }

end Dashboard

namespace Api

/-- HTTP methods used by the client. -/
inductive Method where
  | GET
  | POST
deriving DecidableEq, Repr

/-- The request an `ApiService` operation issues: method and path (the path
includes the serialized query string where applicable). -/
structure HttpRequest where
  method : Method
  path : String
deriving DecidableEq, Repr

/-- Model of `QueryParams` (`types/api.ts`): every field optional. -/
structure QueryParams where
  page : Option Nat
  page_size : Option Nat
  strategy_name : Option String
  sort_by : Option Dashboard.SortBy
  sort_order : Option Dashboard.SortOrder
deriving DecidableEq, Repr

/-- Rendering of `String(value)` for a sort key. -/
def sortByString : Dashboard.SortBy → String
  | .submitted_at => "submitted_at"
  | .edge_score => "edge_score"
  | .overfit_probability => "overfit_probability"

/-- Rendering of `String(value)` for a sort order. -/
def sortOrderString : Dashboard.SortOrder → String
  | .asc => "asc"
  | .desc => "desc"

/-- One key contributes an entry exactly when its value is defined
(`filter(([_, value]) => value !== undefined)`). -/
def optEntry (k : String) : Option String → List (String × String)
  | none => []
  | some v => [(k, v)]

/-- The defined entries of a `QueryParams`, in the declaration order of the
object passed by the caller (page, page_size, strategy_name, sort_by,
sort_order). -/
def queryEntries (p : QueryParams) : List (String × String) :=
  optEntry "page" (p.page.map toString) ++
  optEntry "page_size" (p.page_size.map toString) ++
  optEntry "strategy_name" p.strategy_name ++
  optEntry "sort_by" (p.sort_by.map sortByString) ++
  optEntry "sort_order" (p.sort_order.map sortOrderString)

/-- Model of `new URLSearchParams(entries).toString()`: ampersand-joined `k=v`
pairs (percent-encoding abstracted away). -/
def queryString (p : QueryParams) : String :=
  String.intercalate "&" ((queryEntries p).map (fun kv => kv.1 ++ "=" ++ kv.2))

/-- Model of `getAuditsSummary`. -/
def getAuditsSummary : HttpRequest :=
  { method := Method.GET, path := "/audits/summary" }

/-- Model of `getAuditsList`: an empty query string (falsy) selects the bare
`/audits` endpoint. -/
def getAuditsList (p : QueryParams) : HttpRequest :=
  { method := Method.GET,
    path := if queryString p = "" then "/audits" else "/audits?" ++ queryString p }

/-- Model of `getAuditDetail`. -/
def getAuditDetail (auditId : String) : HttpRequest :=
  { method := Method.GET, path := "/audit/" ++ auditId }

/-- Model of `submitAudit`: POST of the payload to `/audit`. -/
def submitAudit (_payload : Wizard.Payload) : HttpRequest :=
  { method := Method.POST, path := "/audit" }

/-- Modelled from the spec: the fetch-health operation of the Remote
Service Client is named in the contract and the repository documents a
`GET /health` endpoint, but the operation is missing from the captured
`api.ts`. -/
def getHealth : HttpRequest :=
  { method := Method.GET, path := "/health" }

/-- Modelled from the spec: the template-catalog fetch invoked by the
wizard (`apiService.getStrategies()`) is missing from the captured
`api.ts`; the spec lists `GET /strategies` as the catalog endpoint. -/
def getStrategies : HttpRequest :=
  { method := Method.GET, path := "/strategies" }

/-- Modelled from the spec: the fetch-one-template-by-name operation
invoked by the wizard (`apiService.getStrategyByName(name)`) is missing
from the captured `api.ts`; the spec lists `GET /strategies/{name}`. -/
def getStrategyByName (name : String) : HttpRequest :=
  { method := Method.GET, path := "/strategies/" ++ name }

end Api

/-- A concrete catalog entry used to instantiate counterexample scenarios. -/
def alphaStrategy : Wizard.Strategy :=
  { name := "alpha",
    description := "momentum strategy",
    assets := ["BTC", "ETH"],
    backtest_sharpe := 1 }

/-!
Theorems.  Each claim of the specification is settled by exactly one theorem
below; counterexample theorems evaluate the embedded code on explicit
concrete inputs.
-/

/-- C1 (counterexample): the stale-response-suppression claim fails when the
superseded request was started via `refetch()`.  Trace: the mount fetch
resolves with value 1; `refetch()` issues Q1; a dependency change issues Q2
(generation 1); Q2 resolves with value 2; then the superseded Q1 resolves
with value 99.  Q1 is not discarded: the final exposed data is 99, Q1
outcome, not the outcome of the most recently issued query Q2. -/
theorem C1_refetch_response_not_discarded :
    Loader.run Loader.initLoader
        [Loader.Ev.effectResolve 0 (Loader.FetchOutcome.ok 1),
         Loader.Ev.refetchCall,
         Loader.Ev.newQuery,
         Loader.Ev.effectResolve 1 (Loader.FetchOutcome.ok 2),
         Loader.Ev.refetchResolve 0 (Loader.FetchOutcome.ok 99)]
      = some
        { hook := { data := some 99, error := none, loading := false },
          activeGen := 1,
          unmounted := false,
          pendingEffects := [],
          pendingRefetches := [],
          nextRefetchId := 1 } := by
  rfl

/-- C1 (amended): stale-response suppression does hold between effect-driven
fetches.  From any mounted state, issuing query Q1 and then query Q2 through
the effect and resolving the two responses in either order yields the same
final state, and the exposed hook state is exactly the application of the Q2
outcome: the superseded Q1 response is discarded.  Responses of `refetch()`
are exempt from this discipline (see the counterexample). -/
theorem C1_effect_staleness_suppression (s : Loader.LoaderState)
    (o1 o2 : Loader.FetchOutcome) :
    Loader.run { s with unmounted := false }
        [Loader.Ev.newQuery, Loader.Ev.newQuery,
         Loader.Ev.effectResolve (s.activeGen + 1) o1,
         Loader.Ev.effectResolve (s.activeGen + 2) o2]
      = Loader.run { s with unmounted := false }
        [Loader.Ev.newQuery, Loader.Ev.newQuery,
         Loader.Ev.effectResolve (s.activeGen + 2) o2,
         Loader.Ev.effectResolve (s.activeGen + 1) o1]
    ∧ (Loader.run { s with unmounted := false }
        [Loader.Ev.newQuery, Loader.Ev.newQuery,
         Loader.Ev.effectResolve (s.activeGen + 1) o1,
         Loader.Ev.effectResolve (s.activeGen + 2) o2]).map (fun t => t.hook)
      = some (Loader.applyOutcome { s.hook with loading := true } o2) := by
  constructor <;>
    simp [Loader.run, Loader.step, List.erase_cons, Nat.add_left_cancel_iff]

/-- C2 (counterexample): the teardown claim fails for a pending operation
started via `refetch()`.  Trace: the mount fetch resolves with value 1;
`refetch()` starts a fetch; the component unmounts; then the pending refetch
rejects.  The exposed state still transitions after teardown: before the
late rejection the hook state is (data 1, no error, loading), afterwards it
is (data 1, error boom, not loading). -/
theorem C2_refetch_updates_after_unmount :
    (Loader.run Loader.initLoader
        [Loader.Ev.effectResolve 0 (Loader.FetchOutcome.ok 1),
         Loader.Ev.refetchCall,
         Loader.Ev.unmount]).map (fun s => s.hook)
      = some { data := some 1, error := none, loading := true }
    ∧ (Loader.run Loader.initLoader
        [Loader.Ev.effectResolve 0 (Loader.FetchOutcome.ok 1),
         Loader.Ev.refetchCall,
         Loader.Ev.unmount,
         Loader.Ev.refetchResolve 0 (Loader.FetchOutcome.err "boom")]).map
        (fun s => s.hook)
      = some { data := some 1, error := some "boom", loading := false } := by
  exact ⟨rfl, rfl⟩

/-- C2 (amended): teardown does suppress every state transition of an
effect-started fetch — after unmount a resolving effect fetch leaves the
exposed hook state unchanged (its `mounted` flag is false), and no new
effect fetch or `refetch` call can start.  A fetch already started via
`refetch()`, however, has no such guard (see the counterexample). -/
theorem C2_unmount_suppresses_effect_updates (s : Loader.LoaderState)
    (g : Nat) (o : Loader.FetchOutcome) :
    (Loader.step { s with unmounted := true }
        (Loader.Ev.effectResolve g o)).map (fun t => t.hook)
      = (Loader.step { s with unmounted := true }
        (Loader.Ev.effectResolve g o)).map (fun _ => s.hook)
    ∧ Loader.step { s with unmounted := true } Loader.Ev.newQuery = none
    ∧ Loader.step { s with unmounted := true } Loader.Ev.refetchCall = none := by
  refine ⟨?_, by simp [Loader.step], by simp [Loader.step]⟩
  simp [Loader.step]

/-- C3 (counterexample): the exposed pair of `useAudits` does not stay
inside the tagged LoadState shape.  Trace: the mount fetch succeeds with
value 5, a new query is issued and its fetch fails with reason down: in the
resulting reachable state the loaded data and the failure reason are both
non-null simultaneously. -/
theorem C3_loaded_and_failed_coexist :
    ((Loader.run Loader.initLoader
        [Loader.Ev.effectResolve 0 (Loader.FetchOutcome.ok 5),
         Loader.Ev.newQuery,
         Loader.Ev.effectResolve 1 (Loader.FetchOutcome.err "down")]).map
        (fun s => s.hook.data.isSome && s.hook.error.isSome))
      = some true
    ∧ (Loader.run Loader.initLoader
        [Loader.Ev.effectResolve 0 (Loader.FetchOutcome.ok 5),
         Loader.Ev.newQuery,
         Loader.Ev.effectResolve 1 (Loader.FetchOutcome.err "down")]).map
        (fun s => s.hook)
      = some { data := some 5, error := some "down", loading := false } := by
  exact ⟨rfl, rfl⟩

/-- C3 (amended): what the completion code actually maintains — an applied
successful fetch stores the data and clears the error, while an applied
failed fetch stores the reason and leaves previously loaded data in place;
hence data and error may be simultaneously non-null after a success followed
by a failure. -/
theorem C3_completion_invariant (h : Loader.HookState) (v : Nat) (e : String) :
    (Loader.applyOutcome h (Loader.FetchOutcome.ok v)).data = some v
    ∧ (Loader.applyOutcome h (Loader.FetchOutcome.ok v)).error = none
    ∧ (Loader.applyOutcome h (Loader.FetchOutcome.err e)).error = some e
    ∧ (Loader.applyOutcome h (Loader.FetchOutcome.err e)).data = h.data := by
  exact ⟨rfl, rfl, rfl, rfl⟩

/-- C4: the Remote Service Client provides one operation per listed remote
capability — fetch health, fetch summary, fetch the paginated collection
(serializing exactly the defined query fields: each key appears in the query
string precisely when the corresponding `QueryParams` field is defined),
fetch one detail by identifier, fetch the template catalog, fetch one
template by name, and submit a request. -/
theorem C4_client_capabilities :
    Api.getHealth
      = { method := Api.Method.GET, path := "/health" }
    ∧ Api.getAuditsSummary
      = { method := Api.Method.GET, path := "/audits/summary" }
    ∧ (∀ p : Api.QueryParams,
        (Api.getAuditsList p).method = Api.Method.GET
        ∧ (("page" ∈ (Api.queryEntries p).map Prod.fst) ↔ p.page.isSome = true)
        ∧ (("page_size" ∈ (Api.queryEntries p).map Prod.fst)
            ↔ p.page_size.isSome = true)
        ∧ (("strategy_name" ∈ (Api.queryEntries p).map Prod.fst)
            ↔ p.strategy_name.isSome = true)
        ∧ (("sort_by" ∈ (Api.queryEntries p).map Prod.fst)
            ↔ p.sort_by.isSome = true)
        ∧ (("sort_order" ∈ (Api.queryEntries p).map Prod.fst)
            ↔ p.sort_order.isSome = true))
    ∧ (∀ auditId : String,
        Api.getAuditDetail auditId
          = { method := Api.Method.GET, path := "/audit/" ++ auditId })
    ∧ Api.getStrategies
      = { method := Api.Method.GET, path := "/strategies" }
    ∧ (∀ name : String,
        Api.getStrategyByName name
          = { method := Api.Method.GET, path := "/strategies/" ++ name })
    ∧ (∀ payload : Wizard.Payload,
        Api.submitAudit payload
          = { method := Api.Method.POST, path := "/audit" }) := by
  refine ⟨rfl, rfl, ?_, fun _ => rfl, rfl, fun _ => rfl, fun _ => rfl⟩
  intro p
  obtain ⟨pg, ps, sn, sb, so⟩ := p
  refine ⟨rfl, ?_, ?_, ?_, ?_, ?_⟩ <;>
    cases pg <;> cases ps <;> cases sn <;> cases sb <;> cases so <;>
      simp [Api.queryEntries, Api.optEntry]

/-- C5: when the submit call of the wizard fails with reason r, the wizard
records exactly r as the error, clears success, stops loading, and leaves
the step, the mode, the confirmed strategy selection, the asset selection
and the fetched catalog unchanged — the submission stays retriable from the
confirmation step. -/
theorem C5_submit_failure_preserves_selection (s : Wizard.WizardState)
    (t full : Wizard.Strategy) (r : String) :
    ((Wizard.handleSubmit { s with selectedStrategy := some t }
        (Wizard.SubmitOutcome.submitFail full r)).1.error = some r)
    ∧ ((Wizard.handleSubmit { s with selectedStrategy := some t }
        (Wizard.SubmitOutcome.submitFail full r)).1.success = none)
    ∧ ((Wizard.handleSubmit { s with selectedStrategy := some t }
        (Wizard.SubmitOutcome.submitFail full r)).1.loading = false)
    ∧ ((Wizard.handleSubmit { s with selectedStrategy := some t }
        (Wizard.SubmitOutcome.submitFail full r)).1.step = s.step)
    ∧ ((Wizard.handleSubmit { s with selectedStrategy := some t }
        (Wizard.SubmitOutcome.submitFail full r)).1.mode = s.mode)
    ∧ ((Wizard.handleSubmit { s with selectedStrategy := some t }
        (Wizard.SubmitOutcome.submitFail full r)).1.selectedStrategy = some t)
    ∧ ((Wizard.handleSubmit { s with selectedStrategy := some t }
        (Wizard.SubmitOutcome.submitFail full r)).1.selectedAsset
        = s.selectedAsset)
    ∧ ((Wizard.handleSubmit { s with selectedStrategy := some t }
        (Wizard.SubmitOutcome.submitFail full r)).1.strategies
        = s.strategies) := by
  exact ⟨rfl, rfl, rfl, rfl, rfl, rfl, rfl, rfl⟩

/-- C6: `handleBack` steps exactly one step backward and clears only the
selection whose commitment entered the step being left: leaving the
confirmation step clears the qualifier (asset) and preserves the chosen
template; leaving the qualifier step clears the chosen template; leaving the
template step clears the mode; every other field of the wizard state is
unchanged (stated as whole-record equalities), and at the initial step back
is a no-op. -/
theorem C6_back_one_step_frame (s : Wizard.WizardState) :
    Wizard.handleBack { s with step := Wizard.Step.confirm }
      = { s with step := Wizard.Step.asset, selectedAsset := "" }
    ∧ Wizard.handleBack { s with step := Wizard.Step.asset }
      = { s with step := Wizard.Step.strategy, selectedStrategy := none }
    ∧ Wizard.handleBack { s with step := Wizard.Step.strategy }
      = { s with step := Wizard.Step.mode, mode := none }
    ∧ Wizard.handleBack { s with step := Wizard.Step.mode }
      = { s with step := Wizard.Step.mode } := by
  refine ⟨?_, ?_, ?_, ?_⟩ <;> simp [Wizard.handleBack]

/-- C7: every path reaching the confirmation step with the qualifier
omitted submits a payload with the asset field absent.  The skip handler
lands on the confirmation step with an empty asset selection, the payload
built from an empty selection has `selected_asset = none` (the TypeScript
`selectedAsset || undefined` maps the empty string to `undefined`, which is
absent from the serialized body), and the submit request actually issued by
`handleSubmit` from such a state carries that qualifier-free payload. -/
theorem C7_omitted_qualifier_absent_from_payload (s : Wizard.WizardState)
    (t full : Wizard.Strategy) (aid : String) :
    (Wizard.skipAssetSelection s).step = Wizard.Step.confirm
    ∧ (Wizard.skipAssetSelection s).selectedAsset = ""
    ∧ (Wizard.buildPayload full (Wizard.skipAssetSelection s).selectedAsset).selected_asset = none
    ∧ (Wizard.handleSubmit
        { Wizard.skipAssetSelection s with selectedStrategy := some t }
        (Wizard.SubmitOutcome.submitOk full aid)).2
      = [Wizard.SubmitRequest.getStrategyByName t.name,
         Wizard.SubmitRequest.submitAudit
           { strategyData := full, selected_asset := none }] := by
  refine ⟨rfl, rfl, ?_, ?_⟩ <;>
    simp [Wizard.skipAssetSelection, Wizard.buildPayload, Wizard.handleSubmit]

/-- C8: every filter change and every sort change produces a query whose
page number is 1, whatever the previous page was. -/
theorem C8_filter_sort_reset_page (prev : Dashboard.FilterParams)
    (strategyName : String) (sortBy : Dashboard.SortBy)
    (sortOrder : Dashboard.SortOrder) :
    (Dashboard.handleFilterChange prev strategyName).page = 1
    ∧ (Dashboard.handleSortChange prev sortBy sortOrder).page = 1 := by
  exact ⟨rfl, rfl⟩

/-- C9 (counterexample): the catalog is not re-fetched fresh on re-entry.
Concrete run: the wizard enters quick-select (the catalog effect fires),
the catalog loads one strategy, back returns the machine to the mode step,
and quick-select is chosen again — the effect guard
`strategies.length === 0` is now false, so no new catalog fetch is
triggered and the previously fetched set is reused. -/
theorem C9_catalog_reused_after_back :
    Wizard.strategiesEffectFires
        (Wizard.handleModeSelect Wizard.initWizard Wizard.Mode.quickSelect)
      = true
    ∧ Wizard.strategiesEffectFires
        (Wizard.handleModeSelect
          (Wizard.handleBack
            (Wizard.loadStrategies
              (Wizard.handleModeSelect Wizard.initWizard Wizard.Mode.quickSelect)
              (Except.ok [alphaStrategy])))
          Wizard.Mode.quickSelect)
      = false
    ∧ (Wizard.handleModeSelect
        (Wizard.handleBack
          (Wizard.loadStrategies
            (Wizard.handleModeSelect Wizard.initWizard Wizard.Mode.quickSelect)
            (Except.ok [alphaStrategy])))
        Wizard.Mode.quickSelect).strategies
      = [alphaStrategy] := by
  exact ⟨rfl, rfl, rfl⟩

/-- C9 (amended): within one mounted wizard, the fetched catalog survives a
return to the mode step: back from the template step preserves the
strategies, re-entering quick-select still holds them, and the catalog
effect fires again exactly when the retained set is empty (never fetched,
or fetched empty).  The set is discarded only when the wizard page itself
unmounts. -/
theorem C9_catalog_survives_reentry (s : Wizard.WizardState)
    (catalog : List Wizard.Strategy) :
    (Wizard.handleBack
        { s with step := Wizard.Step.strategy, strategies := catalog }).strategies
      = catalog
    ∧ (Wizard.handleModeSelect
        (Wizard.handleBack
          { s with step := Wizard.Step.strategy, strategies := catalog })
        Wizard.Mode.quickSelect).strategies
      = catalog
    ∧ Wizard.strategiesEffectFires
        (Wizard.handleModeSelect
          (Wizard.handleBack
            { s with step := Wizard.Step.strategy, strategies := catalog })
          Wizard.Mode.quickSelect)
      = catalog.isEmpty := by
  refine ⟨?_, ?_, ?_⟩ <;>
    cases catalog <;>
      simp [Wizard.handleBack, Wizard.handleModeSelect,
        Wizard.strategiesEffectFires]

/-- C10: invoking the submit handler with no selected strategy is a total
no-op — whatever the remote would have answered, the wizard state is
returned unchanged and no request is issued. -/
theorem C10_submit_without_strategy_noop (s : Wizard.WizardState)
    (env : Wizard.SubmitOutcome) :
    Wizard.handleSubmit { s with selectedStrategy := none } env
      = ({ s with selectedStrategy := none }, []) := by
  rfl
